import Mathlib

/-!
Verification of the cryptoAid aggregation and reconciliation layer.

This file shallowly embeds the core logic of the repository:

* the single-campaign view builder of the campaign-details page
  (the async function named fetchCampaign in the source),
* the list-view builders (fetchSingleCampaign, fetchAllCampaigns)
  of the campaigns page,
* the batch metadata fetchers (fetchMetadataBatch keyed by campaign id,
  and the Map-of-uris variant of the pinata service),
* the single-id metadata client (fetchMetadataByCampaignId),
* the server routes (the GET lookup-by-id handler, and the POST
  upload-metadata handler).

Modelling conventions:

* Amounts (goal, raised) are modelled as exact rationals holding the
  ETH value obtained from formatEther (wei divided by 10 ^ 18); the
  Number(...) parses and comparisons of the source are exact here.
* Timestamps are integers (unix seconds or milliseconds as in the source).
* Network calls performed by a function are passed in as parameters
  holding their outcome: Except String A for a call that can throw with a
  message, Option A for a call whose own implementation already converts
  every failure into null.
* A try/catch wrapping a whole handler is modelled by propagating the
  error value of the first failing call.
* JavaScript truthiness on the fields the source tests with || or !
  is modelled explicitly: a BigInt is falsy exactly when it is zero, a
  string exactly when it is empty, undefined and null are falsy.
-/

/- ============================================================
   Data model
============================================================ -/

/-- Lifecycle status of a campaign view.  The campaigns-page view only
ever uses the first two constructors; the details-page view uses all
three. -/
inductive Status where
  | ACTIVE
  | ENDED
  | SUCCESSFUL
deriving DecidableEq, Repr

/-- The record returned by the ledger call getCampaign.  The raised
amount may arrive under the field name raised or raisedAmount depending
on the contract ABI, so both are optional here; the details page reads
them through a JavaScript || chain and the campaigns page reads
raisedAmount directly. -/
structure OnChainData where
  creator : String
  title : String
  description : String
  goal : ℚ
  raised : Option ℚ
  raisedAmount : Option ℚ
  deadline : ℤ
deriving DecidableEq, Repr

/-- JavaScript expression a || b for a BigInt-or-undefined a: a wins
exactly when it is present and nonzero. -/
def jsOrQ (a : Option ℚ) (b : ℚ) : ℚ :=
  match a with
  | some v => if v = 0 then b else v
  | none => b

/-- JavaScript expression a || b for strings: a wins exactly when it is
nonempty. -/
def jsOrS (a b : String) : String :=
  if a = "" then b else a

/-- The value the details page uses for the raised amount:
onChainData.raised || onChainData.raisedAmount || BigInt(0). -/
def raisedValue (d : OnChainData) : ℚ :=
  jsOrQ d.raised (jsOrQ d.raisedAmount 0)

/-- The CampaignData view assembled by the campaign-details page.
goal and raised hold the numeric content of the formatEther strings. -/
structure CampaignData where
  id : ℕ
  creator : String
  title : String
  description : String
  imageUrl : String
  videoUrl : String
  goal : ℚ
  raised : ℚ
  deadline : ℤ
  donorCount : ℕ
  isActive : Bool
  status : Status
  progress : ℚ
deriving DecidableEq, Repr

/- ============================================================
   Campaign-details page: fetchCampaign
============================================================ -/

/-- Embedding of the fetchCampaign closure of the campaign-details page.
getCampaignRes and getDonorCountRes hold the outcomes of the two ledger
calls; the surrounding try/catch turns the first failure into the error
shown to the user, so a failing call makes the whole result an error.
No metadata lookup is performed on this path: the metadata object is
initialised from the ledger-stored title/description (with placeholder
defaults when they are empty) and empty media fields, and never
reassigned. -/
def fetchCampaign (campaignId : ℕ) (now : ℤ)
    (getCampaignRes : Except String OnChainData)
    (getDonorCountRes : Except String ℕ) : Except String CampaignData :=
  match getCampaignRes with
  | .error e => .error e
  | .ok onChainData =>
    let metaTitle := jsOrS onChainData.title "Untitled Campaign"
    let metaDescription := jsOrS onChainData.description "No description available"
    let goal := onChainData.goal
    let raised := raisedValue onChainData
    let deadline := onChainData.deadline
    let isExpired : Bool := decide (now ≥ deadline)
    let goalReached : Bool := decide (raised ≥ goal)
    match getDonorCountRes with
    | .error e => .error e
    | .ok donorCount =>
      let progress : ℚ := if goal > 0 then min (raised / goal * 100) 100 else 0
      let status : Status :=
        if goalReached then .SUCCESSFUL else if isExpired then .ENDED else .ACTIVE
      .ok { id := campaignId
            creator := onChainData.creator
            title := metaTitle
            description := metaDescription
            imageUrl := ""
            videoUrl := ""
            goal := goal
            raised := raised
            deadline := deadline
            donorCount := donorCount
            isActive := !isExpired && !goalReached
            status := status
            progress := progress }

/- ============================================================
   Campaigns page: fetchSingleCampaign and fetchAllCampaigns
============================================================ -/

/-- The normalized view used by the campaigns list page.  Its status
vocabulary in the source is the two-value subset ACTIVE/ENDED. -/
structure CampaignView where
  id : ℕ
  title : String
  description : String
  goal : ℚ
  raised : ℚ
  deadline : ℤ
  isActive : Bool
  status : Status
deriving DecidableEq, Repr

/-- Embedding of fetchSingleCampaign of the campaigns page.  The whole
body sits in a try/catch returning null, so a failing ledger read (or a
record with no raisedAmount field, on which formatEther throws) yields
none. -/
def fetchSingleCampaign (campaignId : ℕ) (now : ℤ)
    (getCampaignRes : Except String OnChainData) : Option CampaignView :=
  match getCampaignRes with
  | .error _ => none
  | .ok campaign =>
    match campaign.raisedAmount with
    | none => none
    | some raised =>
      let isExpired : Bool := decide (now ≥ campaign.deadline)
      some { id := campaignId
             title := campaign.title
             description := campaign.description
             goal := campaign.goal
             raised := raised
             deadline := campaign.deadline
             isActive := !isExpired
             status := if isExpired then .ENDED else .ACTIVE }

/-- Embedding of fetchAllCampaigns of the campaigns page: read the total
count (zero is the empty list, not an error), fetch every campaign
0..total-1, keep the non-null results in request order, then reverse so
the newest campaign comes first. -/
def fetchAllCampaigns (campaignCountRes : Except String ℕ) (now : ℤ)
    (getCampaign : ℕ → Except String OnChainData) :
    Except String (List CampaignView) :=
  match campaignCountRes with
  | .error e => .error e
  | .ok total =>
    if total = 0 then .ok []
    else
      .ok ((((List.range total).map
        (fun i => fetchSingleCampaign i now (getCampaign i))).filterMap id).reverse)

/- ============================================================
   Metadata records and the JavaScript Map operations
============================================================ -/

/-- A campaign metadata record stored on IPFS (the CampaignMetadata
interface of the pinata service). -/
structure CampaignMetadata where
  campaignId : String
  title : String
  description : String
  imageUrl : String
  videoUrl : String
  goal : String
  deadline : ℤ
  createdAt : ℤ
deriving DecidableEq, Repr

/-- JavaScript Map.set: replace the value in place when the key is
already present, append the pair otherwise. -/
def mapSet {β : Type} (m : List (String × β)) (k : String) (v : β) :
    List (String × β) :=
  if m.any (fun p => p.1 == k) then
    m.map (fun p => if p.1 == k then (k, v) else p)
  else m ++ [(k, v)]

/-- JavaScript Map.get: the value stored under the key, if any. -/
def mapFind {β : Type} (m : List (String × β)) (k : String) : Option β :=
  (m.find? (fun p => p.1 == k)).map (·.2)

/- ============================================================
   Batch metadata fetchers
============================================================ -/

/-- Embedding of fetchMetadataBatch of frontend/src/types/campaign.ts.
fetchById holds the behaviour of fetchMetadataByCampaignId, which never
throws: it returns none both on not-found and on failure.  Each id is
fetched independently; a truthy (present) result is written under its
own key, everything else is skipped.  The accumulating map is the only
shared state and each id writes its own key, so the sequential fold
denotes the resulting mapping for every completion order. -/
def fetchMetadataBatch (campaignIds : List String)
    (fetchById : String → Option CampaignMetadata) :
    List (String × CampaignMetadata) :=
  campaignIds.foldl (fun results cid =>
    match fetchById cid with
    | some metadata => mapSet results cid metadata
    | none => results) []

/-- Embedding of fetchMetadataBatch of the pinata service, keyed on a
Map from campaign id to IPFS uri.  fetchFromIPFS holds the outcome of
the per-uri gateway fetch, none meaning it threw; the throw is caught
per entry and the entry is skipped. -/
def fetchMetadataBatchByUri (ipfsUris : List (String × String))
    (fetchFromIPFS : String → Option CampaignMetadata) :
    List (String × CampaignMetadata) :=
  ipfsUris.foldl (fun results p =>
    match fetchFromIPFS p.2 with
    | some metadata => mapSet results p.1 metadata
    | none => results) []

/- ============================================================
   Single-id metadata client: fetchMetadataByCampaignId
============================================================ -/

/-- Outcome of the HTTP fetch issued by fetchMetadataByCampaignId:
a 200 response carrying the metadata, a 404, any other non-ok response
with its status and error body, or the fetch call itself throwing. -/
inductive GetResp (α : Type) where
  | success (metadata : α)
  | notFound
  | httpError (status : ℕ) (msg : String)
  | networkError (msg : String)
deriving DecidableEq, Repr

/-- Embedding of fetchMetadataByCampaignId of campaign.ts: a 404 returns
null; a non-ok response makes the function throw, which its own catch
turns into null; a network error is likewise caught into null; only a
successful response yields the metadata. -/
def fetchMetadataByCampaignId (resp : GetResp CampaignMetadata) :
    Option CampaignMetadata :=
  match resp with
  | .success m => some m
  | .notFound => none
  | .httpError _ _ => none
  | .networkError _ => none

/- ============================================================
   Server route: GET lookup-by-id
============================================================ -/

/-- The JSON response of a server route, reduced to the fields the
claims are about: HTTP status, error message and payload. -/
structure GetRouteResult where
  status : ℕ
  error : Option String
  details : Option String
  metadata : Option CampaignMetadata
  ipfsHash : Option String
deriving DecidableEq, Repr

/-- Embedding of the GET fetch-metadata handler: a missing server
credential is a 500 before anything else; a missing or empty campaignId
query parameter is a 400; a failing pinList query is a 500; an empty
row set is a 404 not-found; otherwise the first row's hash is resolved
through the gateway, a failure there being a 500 and success a 200. -/
def fetchMetadataGET (jwt : Option String) (campaignId : Option String)
    (pinList : String → Except String (List String))
    (gatewayGet : String → Except String CampaignMetadata) : GetRouteResult :=
  match jwt with
  | none =>
    { status := 500, error := some "Server configuration error"
      details := none, metadata := none, ipfsHash := none }
  | some _ =>
    match campaignId with
    | none =>
      { status := 400, error := some "campaignId query parameter required"
        details := none, metadata := none, ipfsHash := none }
    | some cid =>
      if cid = "" then
        { status := 400, error := some "campaignId query parameter required"
          details := none, metadata := none, ipfsHash := none }
      else
        match pinList cid with
        | .error e =>
          { status := 500, error := some "Failed to fetch metadata"
            details := some e, metadata := none, ipfsHash := none }
        | .ok rows =>
          match rows with
          | [] =>
            { status := 404, error := some "Metadata not found"
              details := none, metadata := none, ipfsHash := none }
          | ipfsHash :: _ =>
            match gatewayGet ipfsHash with
            | .error e =>
              { status := 500, error := some "Failed to fetch metadata"
                details := some e, metadata := none, ipfsHash := none }
            | .ok m =>
              { status := 200, error := none, details := none
                metadata := some m, ipfsHash := some ipfsHash }

/- ============================================================
   Server route: POST upload-metadata
============================================================ -/

/-- The upload request body (UploadRequest of the route).  A field the
client left out of the JSON arrives as undefined; the route only tests
campaignId and title for truthiness, so the empty string stands for
both an absent and an empty field. -/
structure UploadRequest where
  campaignId : String
  title : String
  description : String
  imageUrl : String
  videoUrl : String
  goal : String
  deadline : ℤ
deriving DecidableEq, Repr

/-- The record the route persists: the request body enriched with the
server-stamped createdAt. -/
structure StoredMetadata where
  body : UploadRequest
  createdAt : ℤ
deriving DecidableEq, Repr

/-- The JSON response of the upload route, reduced to status, error and
the returned hash. -/
structure PostRouteResult where
  status : ℕ
  error : Option String
  ipfsHash : Option String
deriving DecidableEq, Repr

/-- Embedding of the POST upload-metadata handler.  It returns the
response together with the list of write calls issued to the store, so
that the absence of a write on the early-exit paths is observable.  A
missing credential is a 500 before the body is even parsed; a body that
fails to parse is caught into a 500; a falsy campaignId or title is a
400 with no write; otherwise the enriched record is pinned, a pinning
failure being a 500 and success a 200 with the new hash. -/
def uploadMetadataPOST (jwt : Option String)
    (bodyRes : Except String UploadRequest) (nowMs : ℤ)
    (pinJSONToIPFS : StoredMetadata → Except String String) :
    PostRouteResult × List StoredMetadata :=
  match jwt with
  | none =>
    ({ status := 500, error := some "Server configuration error"
       ipfsHash := none }, [])
  | some _ =>
    match bodyRes with
    | .error _ =>
      ({ status := 500, error := some "Failed to upload to IPFS"
         ipfsHash := none }, [])
    | .ok body =>
      if body.campaignId = "" ∨ body.title = "" then
        ({ status := 400, error := some "Missing required fields: campaignId, title"
           ipfsHash := none }, [])
      else
        let metadata : StoredMetadata := { body := body, createdAt := nowMs }
        match pinJSONToIPFS metadata with
        | .error _ =>
          ({ status := 500, error := some "Failed to upload to IPFS"
             ipfsHash := none }, [metadata])
        | .ok hash =>
          ({ status := 200, error := none, ipfsHash := some hash }, [metadata])

/- ============================================================
   Concrete sample data, used by the closed instance theorems
============================================================ -/

/-- A ledger record with goal zero and a deadline far in the future. -/
def dGoalZero : OnChainData :=
  { creator := "0xcafe", title := "Water Well", description := "dig a well"
    goal := 0, raised := some 0, raisedAmount := none, deadline := 100 }

/-- A ledger record halfway to its goal, deadline in the future. -/
def dHalf : OnChainData :=
  { creator := "0xcafe", title := "Food Drive", description := "meals"
    goal := 2, raised := some 1, raisedAmount := some 1, deadline := 100 }

/-- The view fetchCampaign builds from dHalf at time 0 with 3 donors. -/
def vHalf : CampaignData :=
  { id := 0, creator := "0xcafe", title := "Food Drive", description := "meals"
    imageUrl := "", videoUrl := "", goal := 2, raised := 1, deadline := 100
    donorCount := 3, isActive := true, status := .ACTIVE, progress := 50 }

/-- A ledger record with empty title and description and an
over-funded goal, exercising the fallback strings. -/
def dEmptyTitle : OnChainData :=
  { creator := "0xbeef", title := "", description := ""
    goal := 3, raised := none, raisedAmount := some 4, deadline := 200 }

/-- The view fetchCampaign builds from dEmptyTitle at time 0 with 2
donors. -/
def vEmptyTitle : CampaignData :=
  { id := 9, creator := "0xbeef", title := "Untitled Campaign"
    description := "No description available", imageUrl := "", videoUrl := ""
    goal := 3, raised := 4, deadline := 200, donorCount := 2
    isActive := false, status := .SUCCESSFUL, progress := 100 }

/-- The view fetchCampaign builds from dHalf at time 0 with 0 donors
under id 1. -/
def vHalfId1 : CampaignData :=
  { id := 1, creator := "0xcafe", title := "Food Drive", description := "meals"
    imageUrl := "", videoUrl := "", goal := 2, raised := 1, deadline := 100
    donorCount := 0, isActive := true, status := .ACTIVE, progress := 50 }

/-- A sample metadata record. -/
def mSample : CampaignMetadata :=
  { campaignId := "A", title := "Clean Oceans", description := "cleanup"
    imageUrl := "", videoUrl := "", goal := "2", deadline := 100, createdAt := 1 }

/-- A per-id lookup whose entry B fails (or is not found) while every
other id succeeds. -/
def fetchByIdSample : String → Option CampaignMetadata := fun cid =>
  if cid = "B" then none else some { mSample with campaignId := cid }

/-- A second per-id lookup that agrees with fetchByIdSample on A and C
but differs elsewhere. -/
def fetchByIdSampleAlt : String → Option CampaignMetadata := fun cid =>
  if cid = "B" ∨ cid = "Z" then none else some { mSample with campaignId := cid }

/-- A sample id-to-uri map for the pinata-service batch fetcher. -/
def urisSample : List (String × String) :=
  [("A", "uriA"), ("B", "uriB"), ("C", "uriC")]

/-- A per-uri gateway fetch where uriB throws and every other uri
succeeds. -/
def fetchUriSample : String → Option CampaignMetadata := fun u =>
  if u = "uriB" then none else some mSample

/-- An upload body whose title is missing (falsy). -/
def bodyNoTitle : UploadRequest :=
  { campaignId := "7", title := "", description := "d"
    imageUrl := "", videoUrl := "", goal := "1", deadline := 100 }

/-- A store write that always succeeds with a fixed hash. -/
def pinSample : StoredMetadata → Except String String := fun _ => .ok "Qm123"

/-- A gateway read that always succeeds with the sample metadata. -/
def gatewaySample : String → Except String CampaignMetadata := fun _ => .ok mSample

/- ============================================================
   Theorems: status resolution in fetchCampaign (C1)
============================================================ -/

/-- C1.  The claim states that status is SUCCESSFUL only when
raised >= goal AND goal > 0, and that goal = 0 with a future deadline
resolves to ACTIVE.  Counterexample: the goalReached test of
fetchCampaign has no goal > 0 guard, so the record dGoalZero (goal 0,
raised 0, deadline 100) viewed at time 0 resolves to SUCCESSFUL, not
ACTIVE. -/
theorem c1_counterexample :
    dGoalZero.goal = 0 ∧ (0 : ℤ) < dGoalZero.deadline ∧
    (fetchCampaign 1 0 (Except.ok dGoalZero) (Except.ok 0)).map CampaignData.status
      = Except.ok Status.SUCCESSFUL ∧
    Status.SUCCESSFUL ≠ Status.ACTIVE := by
  refine ⟨rfl, by norm_num [dGoalZero], ?_, by simp⟩
  norm_num [fetchCampaign, dGoalZero, raisedValue, jsOrQ, Except.map]

/-- C1 (amended).  The status resolution of fetchCampaign is:
SUCCESSFUL whenever raised >= goal (with no goal > 0 guard, so a
goal-zero campaign is immediately SUCCESSFUL); otherwise ENDED when
now >= deadline; otherwise ACTIVE. -/
theorem c1_status_resolution (cid : ℕ) (now : ℤ) (d : OnChainData) (dc : ℕ) :
    (fetchCampaign cid now (Except.ok d) (Except.ok dc)).map CampaignData.status
      = Except.ok (if raisedValue d ≥ d.goal then Status.SUCCESSFUL
          else if now ≥ d.deadline then Status.ENDED else Status.ACTIVE) := by
  by_cases hg : raisedValue d ≥ d.goal <;> by_cases hd : now ≥ d.deadline <;>
    simp [fetchCampaign, Except.map, hg, hd]

/- ============================================================
   Theorems: progress computation in fetchCampaign (C2)
============================================================ -/

/-- C2.  The progress of a view built by fetchCampaign equals
min(raised / goal * 100, 100) when goal > 0 and 0 when goal = 0, and
for the non-negative amounts of the ledger it always lies in [0, 100],
with no division performed when goal is 0. -/
theorem c2_progress_clamped (cid : ℕ) (now : ℤ) (d : OnChainData) (dc : ℕ)
    (v : CampaignData)
    (hv : fetchCampaign cid now (Except.ok d) (Except.ok dc) = Except.ok v)
    (hr : 0 ≤ raisedValue d) :
    v.progress = (if d.goal > 0 then min (raisedValue d / d.goal * 100) 100 else 0) ∧
    0 ≤ v.progress ∧ v.progress ≤ 100 := by
  simp only [fetchCampaign, Except.ok.injEq] at hv
  subst hv
  refine ⟨rfl, ?_, ?_⟩
  · by_cases h : d.goal > 0
    · simp only [if_pos h]
      exact le_min (mul_nonneg (div_nonneg hr h.le) (by norm_num)) (by norm_num)
    · simp [if_neg h]
  · by_cases h : d.goal > 0
    · simp only [if_pos h]
      exact min_le_right _ _
    · simp [if_neg h]

/-- Witness for C2 at the concrete record dHalf (goal 2, raised 1):
fetchCampaign yields the view vHalf, whose progress is 50. -/
theorem c2_progress_clamped_witness :
    vHalf.progress
      = (if dHalf.goal > 0 then min (raisedValue dHalf / dHalf.goal * 100) 100 else 0) ∧
    0 ≤ vHalf.progress ∧ vHalf.progress ≤ 100 :=
  c2_progress_clamped 0 0 dHalf 3 vHalf
    (by norm_num [fetchCampaign, dHalf, vHalf, raisedValue, jsOrQ, jsOrS, min_def]
        decide)
    (by norm_num [raisedValue, dHalf, jsOrQ])

/- ============================================================
   Theorems: fatal and non-fatal failures in fetchCampaign (C4, C6)
============================================================ -/

/-- C4.  The claim states that building the single-campaign view is
fatal exactly when the ledger record read fails.  Counterexample: with
the ledger record read succeeding (dHalf) but the donor-count read
failing, the call still fails, so record-read failure is not the only
fatal condition. -/
theorem c4_counterexample :
    fetchCampaign 2 0 (Except.ok dHalf) (Except.error "network timeout")
      = Except.error "network timeout" := rfl

/-- C4 (amended).  Building the single-campaign view is fatal exactly
when the ledger record read or the donor-count read fails; when both
succeed, the view is returned and is fully populated: no metadata
lookup is performed on this path, title and description always come
from the ledger record (with placeholder defaults when those are
empty) and imageUrl/videoUrl are always the empty string. -/
theorem c4_fatality_profile :
    (∀ (cid : ℕ) (now : ℤ) (e : String) (dcRes : Except String ℕ),
        fetchCampaign cid now (Except.error e) dcRes = Except.error e) ∧
    (∀ (cid : ℕ) (now : ℤ) (d : OnChainData) (e : String),
        fetchCampaign cid now (Except.ok d) (Except.error e) = Except.error e) ∧
    (∀ (cid : ℕ) (now : ℤ) (d : OnChainData) (dc : ℕ) (v : CampaignData),
        fetchCampaign cid now (Except.ok d) (Except.ok dc) = Except.ok v →
        v.title = jsOrS d.title "Untitled Campaign" ∧
        v.description = jsOrS d.description "No description available" ∧
        v.imageUrl = "" ∧ v.videoUrl = "") := by
  refine ⟨fun _ _ _ _ => rfl, fun _ _ _ _ => rfl, ?_⟩
  intro cid now d dc v hv
  simp only [fetchCampaign, Except.ok.injEq] at hv
  subst hv
  exact ⟨rfl, rfl, rfl, rfl⟩

/-- Witness for C4 at the record dEmptyTitle, whose ledger title and
description are empty: the returned view carries the placeholder
strings and empty media fields. -/
theorem c4_fatality_profile_witness :
    vEmptyTitle.title = jsOrS dEmptyTitle.title "Untitled Campaign" ∧
    vEmptyTitle.description = jsOrS dEmptyTitle.description "No description available" ∧
    vEmptyTitle.imageUrl = "" ∧ vEmptyTitle.videoUrl = "" :=
  c4_fatality_profile.2.2 9 0 dEmptyTitle 2 vEmptyTitle
    (by norm_num [fetchCampaign, dEmptyTitle, vEmptyTitle, raisedValue, jsOrQ, jsOrS,
        min_def])

/-- C6.  The claim states that a failing donor-count lookup degrades
gracefully to donorCount = 0 with the view still returned.
Counterexample: with a successfully read ledger record (dEmptyTitle)
and a failing donor-count call, fetchCampaign fails outright and
returns no view at all. -/
theorem c6_counterexample :
    fetchCampaign 3 50 (Except.ok dEmptyTitle) (Except.error "rpc failure")
      = Except.error "rpc failure" ∧
    ∀ v : CampaignData,
      fetchCampaign 3 50 (Except.ok dEmptyTitle) (Except.error "rpc failure")
        ≠ Except.ok v := by
  refine ⟨rfl, fun v h => ?_⟩
  simp [fetchCampaign] at h

/-- C6 (amended).  A failure of the donor-count ledger lookup is fatal
for the single-campaign view: the donor-count call sits in the same
try block as the record read, so its error is propagated and no view
with a defaulted donorCount is returned. -/
theorem c6_donor_count_fatal (cid : ℕ) (now : ℤ) (d : OnChainData) (e : String) :
    fetchCampaign cid now (Except.ok d) (Except.error e) = Except.error e := rfl

/- ============================================================
   Theorems: isActive agrees with status (C5)
============================================================ -/

/-- C5.  On both view-building code paths, the isActive flag of a
produced view is true exactly when its status is ACTIVE. -/
theorem c5_isActive_iff_status :
    (∀ (cid : ℕ) (now : ℤ) (cRes : Except String OnChainData)
        (dRes : Except String ℕ) (v : CampaignData),
        fetchCampaign cid now cRes dRes = Except.ok v →
        (v.isActive = true ↔ v.status = Status.ACTIVE)) ∧
    (∀ (cid : ℕ) (now : ℤ) (cRes : Except String OnChainData) (v : CampaignView),
        fetchSingleCampaign cid now cRes = some v →
        (v.isActive = true ↔ v.status = Status.ACTIVE)) := by
  constructor
  · intro cid now cRes dRes v hv
    match cRes with
    | .error e => simp [fetchCampaign] at hv
    | .ok d =>
      match dRes with
      | .error e => simp [fetchCampaign] at hv
      | .ok dc =>
        simp only [fetchCampaign, Except.ok.injEq] at hv
        subst hv
        cases hE : decide (now ≥ d.deadline) <;>
          cases hG : decide (raisedValue d ≥ d.goal) <;>
            simp [hE, hG]
  · intro cid now cRes v hv
    match cRes with
    | .error e => simp [fetchSingleCampaign] at hv
    | .ok d =>
      match hra : d.raisedAmount with
      | none => simp [fetchSingleCampaign, hra] at hv
      | some q =>
        simp only [fetchSingleCampaign, hra, Option.some.injEq] at hv
        subst hv
        cases hE : decide (now ≥ d.deadline) <;> simp [hE]

/-- Witness for C5 on the details-page path at the concrete record
dHalf: the resulting view vHalfId1 has isActive true and status
ACTIVE. -/
theorem c5_isActive_iff_status_witness :
    vHalfId1.isActive = true ↔ vHalfId1.status = Status.ACTIVE :=
  c5_isActive_iff_status.1 1 0 (Except.ok dHalf) (Except.ok 0) vHalfId1
    (by norm_num [fetchCampaign, dHalf, vHalfId1, raisedValue, jsOrQ, jsOrS, min_def]
        decide)

/- ============================================================
   Lemmas about the JavaScript Map operations
============================================================ -/

/-- Symmetry of a failing string comparison. -/
theorem beq_false_symm {a b : String} (h : (a == b) = false) : (b == a) = false := by
  simp only [beq_eq_false_iff_ne] at h ⊢
  exact h.symm

/-- Looking up the key just written by mapSet, when the key was already
present (map branch of mapSet). -/
theorem find_map_keyhit {β : Type} (k : String) (v : β) :
    ∀ m : List (String × β), m.any (fun p => p.1 == k) = true →
      mapFind (m.map (fun p => if p.1 == k then (k, v) else p)) k = some v := by
  intro m
  induction m with
  | nil => intro h; simp at h
  | cons p t ih =>
    intro h
    by_cases hp : (p.1 == k) = true
    · unfold mapFind
      rw [List.map_cons, if_pos hp,
        List.find?_cons_of_pos (p := fun (q : String × β) => q.1 == k) _ (by simp)]
      rfl
    · have hp' : (p.1 == k) = false := by simpa using hp
      have ht : t.any (fun p => p.1 == k) = true := by
        have h2 : (p.1 == k || t.any fun p => p.1 == k) = true := by
          rwa [List.any_cons] at h
        simpa [hp'] using h2
      unfold mapFind
      rw [List.map_cons, if_neg hp,
        List.find?_cons_of_neg (p := fun (q : String × β) => q.1 == k) _ (by simp [hp'])]
      exact ih ht

/-- Looking up a different key after the in-place rewrite of mapSet
leaves the stored value unchanged. -/
theorem find_map_keymiss {β : Type} (k k' : String) (v : β)
    (hne : (k' == k) = false) :
    ∀ m : List (String × β),
      mapFind (m.map (fun p => if p.1 == k then (k, v) else p)) k'
        = mapFind m k' := by
  intro m
  induction m with
  | nil => rfl
  | cons p t ih =>
    by_cases hp : (p.1 == k) = true
    · have hpk : p.1 = k := eq_of_beq hp
      have h1 : (k == k') = false := beq_false_symm hne
      have h2 : (p.1 == k') = false := by rw [hpk]; exact h1
      unfold mapFind
      rw [List.map_cons, if_pos hp,
        List.find?_cons_of_neg (p := fun (q : String × β) => q.1 == k') _ (by simp [h1]),
        List.find?_cons_of_neg (p := fun (q : String × β) => q.1 == k') _ (by simp [h2])]
      exact ih
    · have hp' : (p.1 == k) = false := by simpa using hp
      by_cases hq : (p.1 == k') = true
      · unfold mapFind
        rw [List.map_cons, if_neg hp,
          List.find?_cons_of_pos (p := fun (q : String × β) => q.1 == k') _ hq,
          List.find?_cons_of_pos (p := fun (q : String × β) => q.1 == k') _ hq]
      · have hq' : (p.1 == k') = false := by simpa using hq
        unfold mapFind
        rw [List.map_cons, if_neg hp,
          List.find?_cons_of_neg (p := fun (q : String × β) => q.1 == k') _ (by simp [hq']),
          List.find?_cons_of_neg (p := fun (q : String × β) => q.1 == k') _ (by simp [hq'])]
        exact ih

/-- Looking up the key just appended by mapSet, when the key was absent
(append branch of mapSet). -/
theorem find_append_self {β : Type} (k : String) (v : β) :
    ∀ m : List (String × β), m.any (fun p => p.1 == k) = false →
      mapFind (m ++ [(k, v)]) k = some v := by
  intro m
  induction m with
  | nil =>
    intro _
    unfold mapFind
    rw [List.nil_append,
      List.find?_cons_of_pos (p := fun (q : String × β) => q.1 == k) _ (by simp)]
    rfl
  | cons p t ih =>
    intro h
    have h2 : (p.1 == k || t.any fun p => p.1 == k) = false := by
      rwa [List.any_cons] at h
    have hp : (p.1 == k) = false := by
      cases hb : (p.1 == k) <;> simp [hb] at h2 ⊢
    have ht : (t.any fun p => p.1 == k) = false := by
      simpa [hp] using h2
    unfold mapFind
    rw [List.cons_append,
      List.find?_cons_of_neg (p := fun (q : String × β) => q.1 == k) _ (by simp [hp])]
    exact ih ht

/-- Appending an entry for a different key does not change a lookup. -/
theorem find_append_other {β : Type} (k k' : String) (v : β)
    (hne : (k' == k) = false) :
    ∀ m : List (String × β),
      mapFind (m ++ [(k, v)]) k' = mapFind m k' := by
  intro m
  induction m with
  | nil =>
    have h1 : (k == k') = false := beq_false_symm hne
    unfold mapFind
    rw [List.nil_append,
      List.find?_cons_of_neg (p := fun (q : String × β) => q.1 == k') _ (by simp [h1])]
  | cons p t ih =>
    by_cases hq : (p.1 == k') = true
    · unfold mapFind
      rw [List.cons_append,
        List.find?_cons_of_pos (p := fun (q : String × β) => q.1 == k') _ hq,
        List.find?_cons_of_pos (p := fun (q : String × β) => q.1 == k') _ hq]
    · have hq' : (p.1 == k') = false := by simpa using hq
      unfold mapFind
      rw [List.cons_append,
        List.find?_cons_of_neg (p := fun (q : String × β) => q.1 == k') _ (by simp [hq']),
        List.find?_cons_of_neg (p := fun (q : String × β) => q.1 == k') _ (by simp [hq'])]
      exact ih

/-- mapSet stores the given value under the given key. -/
theorem mapFind_mapSet_self {β : Type} (m : List (String × β)) (k : String) (v : β) :
    mapFind (mapSet m k v) k = some v := by
  unfold mapSet
  by_cases h : m.any (fun p => p.1 == k) = true
  · rw [if_pos h]; exact find_map_keyhit k v m h
  · have h' : m.any (fun p => p.1 == k) = false := by
      cases hb : m.any (fun p => p.1 == k) <;> simp [hb] at h ⊢
    rw [if_neg h]
    exact find_append_self k v m h'

/-- mapSet leaves every other key untouched. -/
theorem mapFind_mapSet_other {β : Type} (m : List (String × β)) (k k' : String)
    (v : β) (hne : (k' == k) = false) :
    mapFind (mapSet m k v) k' = mapFind m k' := by
  unfold mapSet
  by_cases h : m.any (fun p => p.1 == k) = true
  · rw [if_pos h]; exact find_map_keymiss k k' v hne m
  · rw [if_neg h]; exact find_append_other k k' v hne m

/-- A key that occurs in no entry has no lookup result. -/
theorem lookup_eq_none_of_not_mem {β : Type} (k : String) :
    ∀ t : List (String × β), k ∉ t.map Prod.fst → t.lookup k = none := by
  intro t
  induction t with
  | nil => intro _; rfl
  | cons p r ih =>
    intro h
    obtain ⟨a, b⟩ := p
    simp only [List.map_cons, List.mem_cons] at h
    push_neg at h
    obtain ⟨h1, h2⟩ := h
    have hbe : (k == a) = false := by simp [h1]
    simp only [List.lookup, hbe]
    exact ih h2

/- ============================================================
   Lemmas characterising the batch fetchers
============================================================ -/

/-- The mapping produced by the id-keyed batch fetch holds, under each
key, exactly the lookup result of that key when the key was requested,
and nothing otherwise. -/
theorem fetchMetadataBatch_find (campaignIds : List String)
    (fetchById : String → Option CampaignMetadata) (k : String) :
    mapFind (fetchMetadataBatch campaignIds fetchById) k
      = if k ∈ campaignIds then fetchById k else none := by
  have aux : ∀ (ids : List String) (acc : List (String × CampaignMetadata)),
      mapFind (ids.foldl (fun results cid =>
        match fetchById cid with
        | some metadata => mapSet results cid metadata
        | none => results) acc) k
      = if k ∈ ids ∧ (fetchById k).isSome then fetchById k
        else mapFind acc k := by
    intro ids
    induction ids with
    | nil => intro acc; simp
    | cons i t ih =>
      intro acc
      rw [List.foldl_cons, ih]
      by_cases hk : k = i
      · subst hk
        cases hfi : fetchById k with
        | some m =>
          by_cases hkt : k ∈ t <;>
            simp [hfi, hkt, mapFind_mapSet_self]
        | none => simp [hfi]
      · have hbe : (k == i) = false := by simp [hk]
        cases hfi : fetchById i with
        | some m =>
          simp only [hfi]
          rw [mapFind_mapSet_other acc i k m hbe]
          simp [List.mem_cons, hk]
        | none =>
          simp only [hfi]
          simp [List.mem_cons, hk]
  rw [fetchMetadataBatch, aux campaignIds []]
  by_cases hk : k ∈ campaignIds <;>
    cases hf : fetchById k <;> simp [hk, hf, mapFind]

/-- The mapping produced by the uri-keyed batch fetch of the pinata
service holds, under each key of the (duplicate-free) input map, the
result of fetching that key's uri. -/
theorem fetchMetadataBatchByUri_find (ipfsUris : List (String × String))
    (fetchFromIPFS : String → Option CampaignMetadata) (k : String)
    (hnd : (ipfsUris.map Prod.fst).Nodup) :
    mapFind (fetchMetadataBatchByUri ipfsUris fetchFromIPFS) k
      = (ipfsUris.lookup k).bind fetchFromIPFS := by
  have aux : ∀ (es : List (String × String)) (acc : List (String × CampaignMetadata)),
      (es.map Prod.fst).Nodup →
      mapFind (es.foldl (fun results p =>
        match fetchFromIPFS p.2 with
        | some metadata => mapSet results p.1 metadata
        | none => results) acc) k
      = ((es.lookup k).bind fetchFromIPFS).or (mapFind acc k) := by
    intro es
    induction es with
    | nil => intro acc _; simp [List.lookup]
    | cons p r ih =>
      intro acc hnd
      obtain ⟨a, u⟩ := p
      simp only [List.map_cons, List.nodup_cons] at hnd
      obtain ⟨ha, hr⟩ := hnd
      rw [List.foldl_cons, ih _ hr]
      by_cases hk : k = a
      · subst hk
        have hrl : r.lookup k = none := lookup_eq_none_of_not_mem k r ha
        have hlk : ((k, u) :: r).lookup k = some u := by simp [List.lookup]
        rw [hrl, hlk]
        cases hfu : fetchFromIPFS u with
        | some m => simp [hfu, mapFind_mapSet_self]
        | none => simp [hfu]
      · have hbe : (k == a) = false := by simp [hk]
        have hlk : ((a, u) :: r).lookup k = r.lookup k := by
          simp only [List.lookup, hbe]
        rw [hlk]
        cases hfu : fetchFromIPFS u with
        | some m =>
          simp only [hfu]
          rw [mapFind_mapSet_other acc a k m hbe]
        | none => simp [hfu]
  rw [fetchMetadataBatchByUri, aux ipfsUris [] hnd]
  simp [mapFind]

/-- The id-keyed batch fetch depends on the backing store only through
the lookups of the requested ids. -/
theorem fetchMetadataBatch_congr (campaignIds : List String)
    (f g : String → Option CampaignMetadata)
    (h : ∀ cid ∈ campaignIds, f cid = g cid) :
    fetchMetadataBatch campaignIds f = fetchMetadataBatch campaignIds g := by
  have aux : ∀ (ids : List String) (acc : List (String × CampaignMetadata)),
      (∀ cid ∈ ids, f cid = g cid) →
      (ids.foldl (fun results cid =>
        match f cid with
        | some metadata => mapSet results cid metadata
        | none => results) acc)
      = (ids.foldl (fun results cid =>
        match g cid with
        | some metadata => mapSet results cid metadata
        | none => results) acc) := by
    intro ids
    induction ids with
    | nil => intro acc _; rfl
    | cons i t ih =>
      intro acc hfg
      rw [List.foldl_cons, List.foldl_cons, hfg i (List.mem_cons_self i t)]
      exact ih _ (fun c hc => hfg c (List.mem_cons_of_mem i hc))
  rw [fetchMetadataBatch, fetchMetadataBatch]
  exact aux campaignIds [] h

/-- The uri-keyed batch fetch depends on the gateway only through the
fetches of the requested uris. -/
theorem fetchMetadataBatchByUri_congr (ipfsUris : List (String × String))
    (f g : String → Option CampaignMetadata)
    (h : ∀ p ∈ ipfsUris, f p.2 = g p.2) :
    fetchMetadataBatchByUri ipfsUris f = fetchMetadataBatchByUri ipfsUris g := by
  have aux : ∀ (es : List (String × String)) (acc : List (String × CampaignMetadata)),
      (∀ p ∈ es, f p.2 = g p.2) →
      (es.foldl (fun results p =>
        match f p.2 with
        | some metadata => mapSet results p.1 metadata
        | none => results) acc)
      = (es.foldl (fun results p =>
        match g p.2 with
        | some metadata => mapSet results p.1 metadata
        | none => results) acc) := by
    intro es
    induction es with
    | nil => intro acc _; rfl
    | cons p r ih =>
      intro acc hfg
      rw [List.foldl_cons, List.foldl_cons, hfg p (List.mem_cons_self p r)]
      exact ih _ (fun q hq => hfg q (List.mem_cons_of_mem p hq))
  rw [fetchMetadataBatchByUri, fetchMetadataBatchByUri]
  exact aux ipfsUris [] h

/- ============================================================
   Theorems: batch fetch isolates per-entry failures (C3)
============================================================ -/

/-- C3.  On both batch fetchers, the resulting mapping holds a key
exactly when that key was requested and its own lookup succeeded: the
value under a key is exactly that key's individual lookup result, a
failing or not-found entry is omitted, and no entry's outcome depends
on any other entry.  Both fetchers are total functions, so the batch
call never raises. -/
theorem c3_batch_isolation :
    (∀ (campaignIds : List String)
        (fetchById : String → Option CampaignMetadata) (k : String),
        mapFind (fetchMetadataBatch campaignIds fetchById) k
          = if k ∈ campaignIds then fetchById k else none) ∧
    (∀ (ipfsUris : List (String × String))
        (fetchFromIPFS : String → Option CampaignMetadata) (k : String),
        (ipfsUris.map Prod.fst).Nodup →
        mapFind (fetchMetadataBatchByUri ipfsUris fetchFromIPFS) k
          = (ipfsUris.lookup k).bind fetchFromIPFS) :=
  ⟨fetchMetadataBatch_find, fetchMetadataBatchByUri_find⟩

/-- Witness for C3 on the concrete batch [A, B, C] where entry B fails:
B is absent from the result while A keeps its own lookup result. -/
theorem c3_batch_isolation_witness :
    (mapFind (fetchMetadataBatch ["A", "B", "C"] fetchByIdSample) "B"
      = if "B" ∈ ["A", "B", "C"] then fetchByIdSample "B" else none) ∧
    (mapFind (fetchMetadataBatch ["A", "B", "C"] fetchByIdSample) "A"
      = if "A" ∈ ["A", "B", "C"] then fetchByIdSample "A" else none) ∧
    (mapFind (fetchMetadataBatchByUri urisSample fetchUriSample) "B"
      = (urisSample.lookup "B").bind fetchUriSample) :=
  ⟨c3_batch_isolation.1 ["A", "B", "C"] fetchByIdSample "B",
   c3_batch_isolation.1 ["A", "B", "C"] fetchByIdSample "A",
   c3_batch_isolation.2 urisSample fetchUriSample "B" (by decide)⟩

/- ============================================================
   Theorems: batch fetch is deterministic over the store (C9)
============================================================ -/

/-- C9.  Both batch fetchers are idempotent against an unchanged
backing store: their result is a function of the store's answers for
the requested entries alone, so two calls with identical inputs whose
lookups agree on those entries return identical mappings (same keys,
same values, literally the same association list). -/
theorem c9_batch_idempotent :
    (∀ (campaignIds : List String)
        (f g : String → Option CampaignMetadata),
        (∀ cid ∈ campaignIds, f cid = g cid) →
        fetchMetadataBatch campaignIds f = fetchMetadataBatch campaignIds g) ∧
    (∀ (ipfsUris : List (String × String))
        (f g : String → Option CampaignMetadata),
        (∀ p ∈ ipfsUris, f p.2 = g p.2) →
        fetchMetadataBatchByUri ipfsUris f = fetchMetadataBatchByUri ipfsUris g) :=
  ⟨fetchMetadataBatch_congr, fetchMetadataBatchByUri_congr⟩

/-- Witness for C9: two store snapshots that agree on the ids A and C
give identical batch results. -/
theorem c9_batch_idempotent_witness :
    fetchMetadataBatch ["A", "C"] fetchByIdSample
      = fetchMetadataBatch ["A", "C"] fetchByIdSampleAlt :=
  c9_batch_idempotent.1 ["A", "C"] fetchByIdSample fetchByIdSampleAlt
    (by intro cid hcid
        rcases List.mem_cons.mp hcid with h | h
        · subst h; decide
        · rcases List.mem_cons.mp h with h2 | h2
          · subst h2; decide
          · simp at h2)

/- ============================================================
   Theorems: upload gateway guards (C7)
============================================================ -/

/-- C7.  With no write credential configured, the upload route answers
with the server-error configuration response, issues no write, and does
not even look at the request body; with the credential configured but
campaignId or title falsy, it answers with the client-error response
and issues no write. -/
theorem c7_upload_guards :
    (∀ (b1 b2 : Except String UploadRequest) (nowMs : ℤ)
        (pin : StoredMetadata → Except String String),
        uploadMetadataPOST none b1 nowMs pin = uploadMetadataPOST none b2 nowMs pin) ∧
    (∀ (b : Except String UploadRequest) (nowMs : ℤ)
        (pin : StoredMetadata → Except String String),
        (uploadMetadataPOST none b nowMs pin).1.status = 500 ∧
        (uploadMetadataPOST none b nowMs pin).1.error
          = some "Server configuration error" ∧
        (uploadMetadataPOST none b nowMs pin).2 = []) ∧
    (∀ (jwt : String) (b : UploadRequest) (nowMs : ℤ)
        (pin : StoredMetadata → Except String String),
        (b.campaignId = "" ∨ b.title = "") →
        (uploadMetadataPOST (some jwt) (Except.ok b) nowMs pin).1.status = 400 ∧
        (uploadMetadataPOST (some jwt) (Except.ok b) nowMs pin).2 = []) := by
  refine ⟨fun _ _ _ _ => rfl, fun _ _ _ => ⟨rfl, rfl, rfl⟩, ?_⟩
  intro jwt b nowMs pin h
  constructor <;> simp [uploadMetadataPOST, if_pos h]

/-- Witness for C7 at the concrete body with empty title: the route
answers 400 and the list of issued writes is empty. -/
theorem c7_upload_guards_witness :
    (uploadMetadataPOST (some "jwt") (Except.ok bodyNoTitle) 0 pinSample).1.status = 400 ∧
    (uploadMetadataPOST (some "jwt") (Except.ok bodyNoTitle) 0 pinSample).2 = [] :=
  c7_upload_guards.2.2 "jwt" bodyNoTitle 0 pinSample (Or.inr rfl)

/- ============================================================
   Theorems: not-found versus failure on lookup-by-id (C8)
============================================================ -/

/-- C8.  The claim states that the not-found outcome, returned as an
explicit null, is distinguishable by the caller from a genuine failure.
Counterexample: the client fetchMetadataByCampaignId returns the very
same null for a 404, for a network error, and for a server-side query
failure, so its caller cannot tell them apart. -/
theorem c8_counterexample :
    fetchMetadataByCampaignId GetResp.notFound = none ∧
    fetchMetadataByCampaignId (GetResp.networkError "connection refused") = none ∧
    fetchMetadataByCampaignId (GetResp.httpError 500 "query failed") = none :=
  ⟨rfl, rfl, rfl⟩

/-- C8 (amended).  An absent record yields an explicit null from the
client, never an exception — but so do network errors and query
failures, so only the HTTP route distinguishes them: at the route
level an empty row set answers 404 while a failing store query answers
500. -/
theorem c8_notfound_profile :
    (fetchMetadataByCampaignId GetResp.notFound = none) ∧
    (∀ m, fetchMetadataByCampaignId (GetResp.success m) = some m) ∧
    (∀ s e, fetchMetadataByCampaignId (GetResp.httpError s e) = none) ∧
    (∀ e, fetchMetadataByCampaignId (GetResp.networkError e) = none) ∧
    (∀ (jwt cid : String) (gw : String → Except String CampaignMetadata),
        cid ≠ "" →
        (fetchMetadataGET (some jwt) (some cid) (fun _ => Except.ok []) gw).status
          = 404) ∧
    (∀ (jwt cid e : String) (gw : String → Except String CampaignMetadata),
        cid ≠ "" →
        (fetchMetadataGET (some jwt) (some cid) (fun _ => Except.error e) gw).status
          = 500) := by
  refine ⟨rfl, fun _ => rfl, fun _ _ => rfl, fun _ => rfl, ?_, ?_⟩
  · intro jwt cid gw hcid
    simp [fetchMetadataGET, hcid]
  · intro jwt cid e gw hcid
    simp [fetchMetadataGET, hcid]

/-- Witness for C8 at a concrete campaign id: status 404 when the row
set is empty, status 500 when the store query fails. -/
theorem c8_notfound_profile_witness :
    (fetchMetadataGET (some "jwt") (some "5")
        (fun _ => Except.ok []) gatewaySample).status = 404 ∧
    (fetchMetadataGET (some "jwt") (some "5")
        (fun _ => Except.error "boom") gatewaySample).status = 500 :=
  ⟨c8_notfound_profile.2.2.2.2.1 "jwt" "5" gatewaySample (by decide),
   c8_notfound_profile.2.2.2.2.2 "jwt" "5" "boom" gatewaySample (by decide)⟩

/- ============================================================
   Lemmas about the campaigns-list pipeline
============================================================ -/

/-- A view produced by fetchSingleCampaign carries the requested id. -/
theorem fetchSingleCampaign_id (cid : ℕ) (now : ℤ)
    (r : Except String OnChainData) (v : CampaignView)
    (h : fetchSingleCampaign cid now r = some v) : v.id = cid := by
  match r with
  | .error e => simp [fetchSingleCampaign] at h
  | .ok c =>
    match hra : c.raisedAmount with
    | none => simp [fetchSingleCampaign, hra] at h
    | some q =>
      simp only [fetchSingleCampaign, hra, Option.some.injEq] at h
      subst h
      rfl

/-- The ids of the surviving views are exactly the ids whose fetch
succeeded, in the original order. -/
theorem map_id_filterMap (now : ℤ) (g : ℕ → Except String OnChainData) :
    ∀ L : List ℕ,
      ((L.filterMap (fun i => fetchSingleCampaign i now (g i))).map (fun v => v.id))
        = L.filter (fun i => (fetchSingleCampaign i now (g i)).isSome) := by
  intro L
  induction L with
  | nil => rfl
  | cons i t ih =>
    cases hfi : fetchSingleCampaign i now (g i) with
    | none => simp [List.filterMap_cons, List.filter_cons, hfi, ih]
    | some v =>
      have hid : v.id = i := fetchSingleCampaign_id i now (g i) v hfi
      simp [List.filterMap_cons, List.filter_cons, hfi, ih, hid]

/- ============================================================
   Theorems: the campaigns list tolerates per-item failure (C10)
============================================================ -/

/-- C10.  The bulk retrieval: a zero total yields the empty list and
not an error; a failing individual campaign fetch yields none; given a
successfully read total, the list call always succeeds, its members
are exactly the campaigns whose individual fetch succeeded, and they
are ordered by strictly decreasing id (newest first). -/
theorem c10_list_resilience :
    (∀ (now : ℤ) (g : ℕ → Except String OnChainData),
        fetchAllCampaigns (Except.ok 0) now g = Except.ok []) ∧
    (∀ (cid : ℕ) (now : ℤ) (e : String),
        fetchSingleCampaign cid now (Except.error e) = none) ∧
    (∀ (total : ℕ) (now : ℤ) (g : ℕ → Except String OnChainData),
        ∃ l : List CampaignView,
          fetchAllCampaigns (Except.ok total) now g = Except.ok l ∧
          (∀ v, v ∈ l ↔ ∃ i, i < total ∧ fetchSingleCampaign i now (g i) = some v) ∧
          (l.map (fun v => v.id)).Pairwise (fun a b => b < a)) := by
  refine ⟨fun _ _ => rfl, fun _ _ _ => rfl, ?_⟩
  intro total now g
  refine ⟨(((List.range total).map
      (fun i => fetchSingleCampaign i now (g i))).filterMap id).reverse, ?_, ?_, ?_⟩
  · by_cases h0 : total = 0
    · subst h0; simp [fetchAllCampaigns]
    · simp [fetchAllCampaigns, h0]
  · intro v
    rw [List.mem_reverse, List.filterMap_map]
    simp [List.mem_filterMap, List.mem_range]
  · rw [List.map_reverse, List.pairwise_reverse, List.filterMap_map,
      Function.id_comp, map_id_filterMap now g]
    exact List.Pairwise.sublist (List.filter_sublist _) (List.pairwise_lt_range total)
